import Mathlib

/-!
# gocql-example: the timestamp tests of `example.go` and `PerformOperations` of `example1.go`

The repository is a sequence of calls into the `gocql` driver.  The driver and the
cluster behind it are not part of the repository, so they are kept abstract: a
`Driver` answers every call with an arbitrary reply that may depend on the whole
history of calls made on the session so far.  Every call the repository's code
makes is recorded, in order, in the session's `log`.

Conventions of the embedding:

* Go's `error` is `Option Error` (`none` is `nil`); `gocql.ErrNotFound` is a value
  of its own, distinct from every error made with `errors.New`.
* `int64` values are `Int`; the only arithmetic in the sources is
  `time.Now().UnixNano() / 1000`, which cannot overflow.
* `session.Query(stmt, args...)` builds a `Query` value; `Exec`, `Iter` and `Scan`
  take the session explicitly and return the session with the call recorded.
* `t.Fatal(err)` and `log.Fatalf` stop the function: the remaining calls are not made.
-/

namespace gocql

/-- A Go `error` value.  Go compares errors by identity, and the only comparison in
the sources is with the driver's own value `gocql.ErrNotFound`: that value is the
constructor `notFound`, and every other error is kept as its message, so an error
that merely reads "not found" is a different value. -/
inductive Error where
  | notFound
  | other (text : String)
deriving DecidableEq, Repr

/-- The Go method `Error()`, which `%v` prints. -/
def Error.msg : Error → String
  | .notFound => "not found"
  | .other text => text

/-- The Go function `errors.New`. -/
def errors.New (msg : String) : Error := .other msg

/-- The error `gocql.ErrNotFound`, returned by `Query.Scan` when no row is found. -/
def ErrNotFound : Error := .notFound

/-- A value bound to a `?` marker of a statement, tagged with its Go type. -/
inductive Value where
  | int (v : Int)
  | int64 (v : Int)
  | string (v : String)
deriving DecidableEq, Repr

/-- The consistency levels named in the sources. -/
inductive Consistency where
  | One
  | Quorum
  | LocalQuorum
deriving DecidableEq, Repr

/-- The two batch kinds: `gocql.LoggedBatch` and `gocql.UnloggedBatch`. -/
inductive BatchType where
  | LoggedBatch
  | UnloggedBatch
deriving DecidableEq, Repr

/-- A `*gocql.Query`: statement, bound values and the timestamp set by `WithTimestamp`. -/
structure Query where
  stmt : String
  values : List Value
  timestamp : Option Int
deriving DecidableEq, Repr

/-- The Go call `session.Query(stmt, values...)`. -/
def mkQuery (stmt : String) (values : List Value) : Query := ⟨stmt, values, none⟩

/-- The Go method `Query.WithTimestamp`. -/
def Query.WithTimestamp (q : Query) (timestamp : Int) : Query :=
  { q with timestamp := some timestamp }

/-- One statement of a batch. -/
structure BatchEntry where
  stmt : String
  args : List Value
deriving DecidableEq, Repr

/-- A `*gocql.Batch`. -/
structure Batch where
  typ : BatchType
  entries : List BatchEntry
  timestamp : Option Int
deriving DecidableEq, Repr

/-- The Go call `session.NewBatch(typ)`. -/
def NewBatch (typ : BatchType) : Batch := ⟨typ, [], none⟩

/-- The Go method `Batch.WithTimestamp`. -/
def Batch.WithTimestamp (b : Batch) (timestamp : Int) : Batch :=
  { b with timestamp := some timestamp }

/-- The Go method `Batch.Query`: appends one statement to the batch. -/
def Batch.Query (b : Batch) (stmt : String) (args : List Value) : Batch :=
  { b with entries := b.entries ++ [⟨stmt, args⟩] }

/-- A `*gocql.TableMetadata`; only the name is kept. -/
structure TableMetadata where
  Name : String
deriving DecidableEq, Repr

/-- A `*gocql.KeyspaceMetadata`: `Tables` is the Go map, as an association list. -/
structure KeyspaceMetadata where
  Name : String
  Tables : List (String × TableMetadata)
deriving DecidableEq, Repr

/-- A driver call made by the repository's code, as recorded in the session log. -/
inductive Op where
  | exec (q : Query)
  | executeBatch (b : Batch)
  | iter (q : Query)
  | scan
  | close
  | queryScan (q : Query)
  | keyspaceMetadata (keyspace : String)
deriving DecidableEq, Repr

/-- The driver and the cluster behind it.  Each reply may depend on the calls made
so far.  `ρ` is the type of a row as decoded into the destinations of `Scan`. -/
structure Driver (ρ : Type) where
  execReply : List Op → Query → Option Error
  batchReply : List Op → Batch → Option Error
  iterReply : List Op → Query → List ρ × Option Error
  scanReply : List Op → Query → Option ρ × Option Error
  metadataReply : List Op → String → Option KeyspaceMetadata × Option Error

/-- A `*gocql.Session`: the driver together with the calls made on it so far. -/
structure Session (ρ : Type) where
  log : List Op
  driver : Driver ρ

/-- An open `*gocql.Iter`: the rows `Scan` will still yield, and what `Close` returns. -/
structure Iter (ρ : Type) where
  rows : List ρ
  err : Option Error

variable {ρ : Type}

/-- Append a call to the session log. -/
def Session.record (s : Session ρ) (op : Op) : Session ρ :=
  { s with log := s.log ++ [op] }

/-- The Go method `Query.Exec`. -/
def Session.Exec (s : Session ρ) (q : Query) : Session ρ × Option Error :=
  (s.record (.exec q), s.driver.execReply s.log q)

/-- The Go method `Session.ExecuteBatch`. -/
def Session.ExecuteBatch (s : Session ρ) (b : Batch) : Session ρ × Option Error :=
  (s.record (.executeBatch b), s.driver.batchReply s.log b)

/-- The Go method `Query.Iter`. -/
def Session.Iter (s : Session ρ) (q : Query) : Session ρ × Iter ρ :=
  (s.record (.iter q), ⟨(s.driver.iterReply s.log q).1, (s.driver.iterReply s.log q).2⟩)

/-- The Go method `Iter.Close`. -/
def Iter.Close (it : Iter ρ) (s : Session ρ) : Session ρ × Option Error :=
  (s.record .close, it.err)

/-- The Go method `Query.Scan`: at most one row, and an error. -/
def Session.QueryScan (s : Session ρ) (q : Query) : Session ρ × Option ρ × Option Error :=
  (s.record (.queryScan q), s.driver.scanReply s.log q)

/-- The Go method `Session.KeyspaceMetadata`. -/
def Session.KeyspaceMetadata (s : Session ρ) (keyspace : String) :
    Session ρ × Option KeyspaceMetadata × Option Error :=
  (s.record (.keyspaceMetadata keyspace), s.driver.metadataReply s.log keyspace)

/-- The Go struct `gocql.PasswordAuthenticator`. -/
structure PasswordAuthenticator where
  Username : String
  Password : String
deriving DecidableEq, Repr

/-- The fields of `*gocql.ClusterConfig` the sources assign. `Timeout` is in nanoseconds. -/
structure ClusterConfig where
  Hosts : List String
  Keyspace : String
  Consistency : Consistency
  ProtoVersion : Int
  DefaultTimestamp : Bool
  Timeout : Int
  Authenticator : Option PasswordAuthenticator
deriving DecidableEq, Repr

/-- What the process finds outside itself: the configuration `gocql.NewCluster`
starts from, and for every configuration whether a session can be created and, if
so, the driver behind it. -/
structure Env (ρ : Type) where
  defaults : ClusterConfig
  createSession : ClusterConfig → Except Error (Driver ρ)

/-- The Go call `gocql.NewCluster(hosts...)`. -/
def NewCluster (env : Env ρ) (hosts : List String) : ClusterConfig :=
  { env.defaults with Hosts := hosts }

/-- The Go method `ClusterConfig.CreateSession`: a new session has made no call yet. -/
def ClusterConfig.CreateSession (cluster : ClusterConfig) (env : Env ρ) :
    Except Error (Session ρ) :=
  match env.createSession cluster with
  | .error err => .error err
  | .ok driver => .ok ⟨[], driver⟩

end gocql

namespace cqldao

open gocql

def CassandraHost : String := "localhost"
def CassandraKeyspace : String := "test_lab"
def TestTableName : String := "gocql_timestamp_test"

/-- A row of `checkTimestamp`'s select, as scanned into its three `int64` variables. -/
structure TsRow where
  writtenTimestamp : Int
  ta : Int
  tb : Int
deriving DecidableEq, Repr

/-- The statement `removeTableStmt` of `createDatabase`. -/
def removeTableStmt : String := "DROP TABLE IF EXISTS " ++ TestTableName

/-- The statement `createTableStmt` of `createDatabase`. -/
def createTableStmt : String :=
  "CREATE TABLE " ++ TestTableName ++
  " (\n\t\tid bigint,\n\t\ta text,\n\t\tb text,\n\t\ttimestamp bigint,\n\t\tPRIMARY KEY (id)\n\t)\n\tWITH COMPACTION = \x7b\x27class\x27 : \x27LeveledCompactionStrategy\x27\x7d"

/-- The Go function `createDatabase`. -/
def createDatabase (session : Session TsRow) : Session TsRow × Option Error :=
  match session.Exec (mkQuery removeTableStmt []) with
  | (session, some err) => (session, some err)
  | (session, none) =>
    match session.Exec (mkQuery createTableStmt []) with
    | (session, some err) => (session, some err)
    | (session, none) => (session, none)

/-- The statement `selectStmt` of `checkTimestamp`. -/
def selectStmt : String :=
  "select timestamp, writetime(a) as ta, writetime(b) as tb\n        from " ++
  TestTableName ++ " where id in (?, ?)"

/-- The error `checkTimestamp` returns on a mismatching row. -/
def mismatchError : Error := errors.New "Read timestamp doesn\x27t match written timestamp"

/-- The loop `for it.Scan(&writtenTimestamp, &ta, &tb) { ... }` of `checkTimestamp`
followed by `it.Close()`, over the rows the iterator still has to yield. -/
def checkTimestamp.loop (timestamp : Int) (it : Iter TsRow) :
    List TsRow → Session TsRow → Session TsRow × Option Error
  | [], session =>
    -- `Scan` returns false: leave the loop and close the iterator
    match it.Close (session.record .scan) with
    | (session, some err) => (session, some err)
    | (session, none) => (session, none)
  | r :: rest, session =>
    -- `Scan` returns true and has filled the three variables from `r`
    let session := session.record .scan
    if r.writtenTimestamp != timestamp || r.ta != timestamp || r.tb != timestamp then
      (session, some mismatchError)
    else
      checkTimestamp.loop timestamp it rest session

/-- The Go function `checkTimestamp`. -/
def checkTimestamp (session : Session TsRow) (timestamp id1 id2 : Int) :
    Session TsRow × Option Error :=
  match session.Iter (mkQuery selectStmt [.int64 id1, .int64 id2]) with
  | (session, it) => checkTimestamp.loop timestamp it it.rows session

/-- The Go function `connectToCassandra`. -/
def connectToCassandra (env : Env TsRow) : Except Error (Session TsRow) :=
  let cluster := NewCluster env [CassandraHost]
  let cluster := { cluster with Keyspace := CassandraKeyspace }
  let cluster := { cluster with Consistency := Consistency.LocalQuorum }
  let cluster := { cluster with ProtoVersion := 3 }
  let cluster := { cluster with DefaultTimestamp := true }
  cluster.CreateSession env

/-- How a test function ends: the calls it made on its session, and the error it
passed to `t.Fatal`, if any. -/
structure TestRun where
  log : List Op
  fatal : Option Error
deriving DecidableEq, Repr

/-- The value `customTimestamp := time.Now().UnixNano() / 1000` every write test
computes; `now` is the clock reading in nanoseconds and `/` is Go's truncating
integer division. -/
def customTimestamp (now : Int) : Int := Int.tdiv now 1000

/-- The insert statement of the `WithTimestamp` tests. -/
def insertStmt : String :=
  "INSERT INTO " ++ TestTableName ++ " (id, a, b, timestamp) VALUES (?, ?, ?, ?)"

/-- The insert statement of the `UsingTimestamp` tests. -/
def insertUsingStmt : String :=
  "INSERT INTO " ++ TestTableName ++
  " (id, a, b, timestamp) VALUES (?, ?, ?, ?) USING TIMESTAMP ?"

/-- The Go function `TestGOCQL_CreateDatabase`. -/
def TestGOCQL_CreateDatabase (env : Env TsRow) : TestRun :=
  match connectToCassandra env with
  | .error err => ⟨[], some err⟩
  | .ok session =>
    match createDatabase session with
    | (session, some err) => ⟨session.log, some err⟩
    | (session, none) => ⟨session.log, none⟩

/-- The Go function `TestGOCQL_Query_WithTimestamp`; `now` is `time.Now().UnixNano()`. -/
def TestGOCQL_Query_WithTimestamp (env : Env TsRow) (now : Int) : TestRun :=
  match connectToCassandra env with
  | .error err => ⟨[], some err⟩
  | .ok session =>
    let customTimestamp := cqldao.customTimestamp now
    let q1 := (mkQuery insertStmt
      [.int 1, .string "foo 1", .string "bar 1", .int64 customTimestamp]).WithTimestamp
        customTimestamp
    let q2 := (mkQuery insertStmt
      [.int 2, .string "foo 2", .string "bar 2", .int64 customTimestamp]).WithTimestamp
        customTimestamp
    match session.Exec q1 with
    | (session, some err) => ⟨session.log, some err⟩
    | (session, none) =>
      match session.Exec q2 with
      | (session, some err) => ⟨session.log, some err⟩
      | (session, none) =>
        match checkTimestamp session customTimestamp 1 2 with
        | (session, some err) => ⟨session.log, some err⟩
        | (session, none) => ⟨session.log, none⟩

/-- The Go function `TestGOCQL_Query_UsingTimestamp`. -/
def TestGOCQL_Query_UsingTimestamp (env : Env TsRow) (now : Int) : TestRun :=
  match connectToCassandra env with
  | .error err => ⟨[], some err⟩
  | .ok session =>
    let customTimestamp := cqldao.customTimestamp now
    let q1 := mkQuery insertUsingStmt
      [.int 3, .string "foo 3", .string "bar 3", .int64 customTimestamp, .int64 customTimestamp]
    let q2 := mkQuery insertUsingStmt
      [.int 4, .string "foo 4", .string "bar 4", .int64 customTimestamp, .int64 customTimestamp]
    match session.Exec q1 with
    | (session, some err) => ⟨session.log, some err⟩
    | (session, none) =>
      match session.Exec q2 with
      | (session, some err) => ⟨session.log, some err⟩
      | (session, none) =>
        match checkTimestamp session customTimestamp 3 4 with
        | (session, some err) => ⟨session.log, some err⟩
        | (session, none) => ⟨session.log, none⟩

/-- The Go function `TestGOCQL_Batch_Logged_WithTimestamp`. -/
def TestGOCQL_Batch_Logged_WithTimestamp (env : Env TsRow) (now : Int) : TestRun :=
  match connectToCassandra env with
  | .error err => ⟨[], some err⟩
  | .ok session =>
    let customTimestamp := cqldao.customTimestamp now
    let batch := (NewBatch BatchType.LoggedBatch).WithTimestamp customTimestamp
    let batch := batch.Query insertStmt
      [.int 5, .string "foo 5", .string "bar 5", .int64 customTimestamp]
    let batch := batch.Query insertStmt
      [.int 6, .string "foo 6", .string "bar 6", .int64 customTimestamp]
    match session.ExecuteBatch batch with
    | (session, some err) => ⟨session.log, some err⟩
    | (session, none) =>
      match checkTimestamp session customTimestamp 5 6 with
      | (session, some err) => ⟨session.log, some err⟩
      | (session, none) => ⟨session.log, none⟩

/-- The Go function `TestGOCQL_Batch_Unlogged_WithTimestamp`. -/
def TestGOCQL_Batch_Unlogged_WithTimestamp (env : Env TsRow) (now : Int) : TestRun :=
  match connectToCassandra env with
  | .error err => ⟨[], some err⟩
  | .ok session =>
    let customTimestamp := cqldao.customTimestamp now
    let batch := (NewBatch BatchType.UnloggedBatch).WithTimestamp customTimestamp
    let batch := batch.Query insertStmt
      [.int 7, .string "foo 7", .string "bar 7", .int64 customTimestamp]
    let batch := batch.Query insertStmt
      [.int 8, .string "foo 8", .string "bar 8", .int64 customTimestamp]
    match session.ExecuteBatch batch with
    | (session, some err) => ⟨session.log, some err⟩
    | (session, none) =>
      match checkTimestamp session customTimestamp 7 8 with
      | (session, some err) => ⟨session.log, some err⟩
      | (session, none) => ⟨session.log, none⟩

/-- The Go function `TestGOCQL_Batch_Logged_UsingTimestamp`. -/
def TestGOCQL_Batch_Logged_UsingTimestamp (env : Env TsRow) (now : Int) : TestRun :=
  match connectToCassandra env with
  | .error err => ⟨[], some err⟩
  | .ok session =>
    let customTimestamp := cqldao.customTimestamp now
    let batch := NewBatch BatchType.LoggedBatch
    let batch := batch.Query insertUsingStmt
      [.int 9, .string "foo 9", .string "bar 9", .int64 customTimestamp, .int64 customTimestamp]
    let batch := batch.Query insertUsingStmt
      [.int 10, .string "foo 10", .string "bar 10", .int64 customTimestamp,
        .int64 customTimestamp]
    match session.ExecuteBatch batch with
    | (session, some err) => ⟨session.log, some err⟩
    | (session, none) =>
      match checkTimestamp session customTimestamp 9 10 with
      | (session, some err) => ⟨session.log, some err⟩
      | (session, none) => ⟨session.log, none⟩

/-- The Go function `TestGOCQL_Batch_Unlogged_UsingTimestamp`. -/
def TestGOCQL_Batch_Unlogged_UsingTimestamp (env : Env TsRow) (now : Int) : TestRun :=
  match connectToCassandra env with
  | .error err => ⟨[], some err⟩
  | .ok session =>
    let customTimestamp := cqldao.customTimestamp now
    let batch := NewBatch BatchType.UnloggedBatch
    let batch := batch.Query insertUsingStmt
      [.int 11, .string "foo 11", .string "bar 11", .int64 customTimestamp,
        .int64 customTimestamp]
    let batch := batch.Query insertUsingStmt
      [.int 12, .string "foo 12", .string "bar 12", .int64 customTimestamp,
        .int64 customTimestamp]
    match session.ExecuteBatch batch with
    | (session, some err) => ⟨session.log, some err⟩
    | (session, none) =>
      match checkTimestamp session customTimestamp 11 12 with
      | (session, some err) => ⟨session.log, some err⟩
      | (session, none) => ⟨session.log, none⟩

end cqldao

namespace main1

open gocql

/-- A row of the `person` selects, as scanned into `name` and `phone`. -/
structure PersonRow where
  name : String
  phone : String
deriving DecidableEq, Repr

/-- How `PerformOperations` ends. -/
inductive Ending where
  | returned
  | fatal (msg : String)
  | nilDereference
deriving DecidableEq, Repr

/-- A run of `PerformOperations`: the calls made on the session, the lines written
with `log.Printf`, and how the function ended. -/
structure Run where
  log : List Op
  printed : List String
  ending : Ending
deriving DecidableEq, Repr

def createPersonStmt : String :=
  "CREATE TABLE person (" ++ "id text, name text, phone text, " ++ "PRIMARY KEY (id))"

def insertPersonStmt : String := "INSERT INTO person (id, name, phone) VALUES (?, ?, ?)"

def selectOneStmt : String := "SELECT name, phone FROM person WHERE id=\x27shalabh\x27"

def selectAllStmt : String := "SELECT name, phone FROM person"

/-- The final loop `for iter.Scan(&name, &phone) { ... }` of `PerformOperations`;
the iterator is not closed afterwards. -/
def PerformOperations.loop :
    List PersonRow → Session PersonRow → List String → Session PersonRow × List String
  | [], session, printed => (session.record .scan, printed)
  | r :: rest, session, printed =>
    PerformOperations.loop rest (session.record .scan)
      (printed ++ ["Iter Name: " ++ r.name, "Iter Phone: " ++ r.phone])

/-- The end of `PerformOperations`, from the first `log.Printf` on: print the
scanned name and phone, then iterate over all rows. -/
def PerformOperations.printAll (session : Session PersonRow) (name phone : String) : Run :=
  match session.Iter (mkQuery selectAllStmt []) with
  | (session, iter) =>
    match PerformOperations.loop iter.rows session
        ["Name: " ++ name, "Phone: " ++ phone] with
    | (session, printed) => ⟨session.log, printed, .returned⟩

/-- The part of `PerformOperations` after the table check: insert, select one, select all. -/
def PerformOperations.afterCheck (session : Session PersonRow) : Run :=
  match session.Exec (mkQuery insertPersonStmt
      [.string "shalabh", .string "Shalabh Aggarwal", .string "1234567890"]) with
  | (session, _) =>
    match session.QueryScan (mkQuery selectOneStmt []) with
    | (session, row, err) =>
      let name := match row with
        | some r => r.name
        | none => ""
      let phone := match row with
        | some r => r.phone
        | none => ""
      match err with
      | some e =>
        if e ≠ ErrNotFound then
          ⟨session.log, [], .fatal ("Query failed: " ++ e.msg)⟩
        else
          PerformOperations.printAll session name phone
      | none => PerformOperations.printAll session name phone

/-- The cluster configuration `PerformOperations` builds. -/
def PerformOperations.cluster (env : Env PersonRow) : ClusterConfig :=
  let cluster := NewCluster env ["127.0.0.1"]
  let cluster := { cluster with
    Authenticator := some ⟨"some_username", "some_password"⟩ }
  let cluster := { cluster with Keyspace := "keyspace_name" }
  let cluster := { cluster with Timeout := 5 * 1000000000 }
  let cluster := { cluster with ProtoVersion := 4 }
  cluster

/-- The Go function `PerformOperations`.  The error of `KeyspaceMetadata` is
discarded; a nil metadata pointer makes the read of `keySpaceMeta.Tables` fail. -/
def PerformOperations (env : Env PersonRow) : Run :=
  match (PerformOperations.cluster env).CreateSession env with
  | .error err => ⟨[], [], .fatal ("Could not connect to cassandra cluster: " ++ err.msg)⟩
  | .ok session =>
    match session.KeyspaceMetadata "keyspace_name" with
    | (session, none, _) => ⟨session.log, [], .nilDereference⟩
    | (session, some keySpaceMeta, _) =>
      match keySpaceMeta.Tables.lookup "person" with
      | none =>
        match session.Exec (mkQuery createPersonStmt []) with
        | (session, _) => PerformOperations.afterCheck session
      | some _ => PerformOperations.afterCheck session

/-- The Go function `main` of `example1.go`. -/
def main (env : Env PersonRow) : Run := PerformOperations env

/-- The `CREATE TABLE person` call. -/
def createPersonOp : Op := Op.exec (mkQuery createPersonStmt [])

/-- The `INSERT INTO person` call. -/
def insertPersonOp : Op :=
  Op.exec (mkQuery insertPersonStmt
    [.string "shalabh", .string "Shalabh Aggarwal", .string "1234567890"])

/-- The calls that only read: `Query.Scan`, `Query.Iter` and `Iter.Scan`. -/
def Reads : Op → Prop
  | .queryScan _ => True
  | .iter _ => True
  | .scan => True
  | _ => False

/-- A driver that knows the keyspace with the given tables; every call succeeds and
every select is empty. -/
def tablesDriver (tables : List (String × TableMetadata)) : Driver PersonRow where
  execReply := fun _ _ => none
  batchReply := fun _ _ => none
  iterReply := fun _ _ => ([], none)
  scanReply := fun _ _ => (none, some ErrNotFound)
  metadataReply := fun _ keyspace => (some ⟨keyspace, tables⟩, none)

/-- A driver on which `KeyspaceMetadata` fails: a nil pointer and an error. -/
def noKeyspaceDriver : Driver PersonRow where
  execReply := fun _ _ => none
  batchReply := fun _ _ => none
  iterReply := fun _ _ => ([], none)
  scanReply := fun _ _ => (none, some ErrNotFound)
  metadataReply := fun _ _ => (none, some (errors.New "keyspace does not exist"))

/-- A driver that knows the keyspace with the table `person` and whose `Query.Scan`
fails with an error that reads "not found" but is not `gocql.ErrNotFound`. -/
def lookalikeDriver : Driver PersonRow where
  execReply := fun _ _ => none
  batchReply := fun _ _ => none
  iterReply := fun _ _ => ([], none)
  scanReply := fun _ _ => (none, some (errors.New "not found"))
  metadataReply := fun _ keyspace => (some ⟨keyspace, [("person", ⟨"person"⟩)]⟩, none)

/-- An environment in which a session can always be created, on the given driver. -/
def envOf (driver : Driver PersonRow) : Env PersonRow where
  defaults := ⟨[], "", Consistency.Quorum, 0, true, 0, none⟩
  createSession := fun _ => .ok driver

end main1

/-! ## Vocabulary of the statements -/

namespace cqldao

open gocql

/-- A row agrees with the expected timestamp in all three of its values. -/
def TsRow.agrees (r : TsRow) (timestamp : Int) : Prop :=
  r.writtenTimestamp = timestamp ∧ r.ta = timestamp ∧ r.tb = timestamp

instance (r : TsRow) (timestamp : Int) : Decidable (r.agrees timestamp) := by
  unfold TsRow.agrees
  infer_instance

/-- The query `checkTimestamp` opens its iterator on. -/
def selectQuery (id1 id2 : Int) : Query := mkQuery selectStmt [.int64 id1, .int64 id2]

/-- The rows the iterator of `checkTimestamp` has to yield, and the result of closing it. -/
def iteratorOf (session : Session TsRow) (id1 id2 : Int) : List TsRow × Option Error :=
  session.driver.iterReply session.log (selectQuery id1 id2)

/-- Number of `Iter.Close` calls in a log. -/
def closeCalls (log : List Op) : Nat := log.count Op.close

/-- A driver on which every write succeeds and every iterator yields `rows` and then
closes with `err`. -/
def fixedDriver (rows : List TsRow) (err : Option Error) : Driver TsRow where
  execReply := fun _ _ => none
  batchReply := fun _ _ => none
  iterReply := fun _ _ => (rows, err)
  scanReply := fun _ _ => (none, none)
  metadataReply := fun _ _ => (none, none)

/-- A fresh session on `fixedDriver`. -/
def fixedSession (rows : List TsRow) (err : Option Error) : Session TsRow :=
  ⟨[], fixedDriver rows err⟩

/-- A driver whose `n`-th call of `Exec` or `ExecuteBatch` gets the `n`-th entry of
`replies` (success past the end of the list); iterators yield `rows` and close with `err`. -/
def scriptedDriver (replies : List (Option Error)) (rows : List TsRow)
    (err : Option Error) : Driver TsRow where
  execReply := fun log _ => (replies.get? log.length).join
  batchReply := fun log _ => (replies.get? log.length).join
  iterReply := fun _ _ => (rows, err)
  scanReply := fun _ _ => (none, none)
  metadataReply := fun _ _ => (none, none)

/-- An environment in which a session can always be created, on the given driver. -/
def envOf (driver : Driver TsRow) : Env TsRow where
  defaults := ⟨[], "", Consistency.Quorum, 0, true, 0, none⟩
  createSession := fun _ => .ok driver

/-- The calls `checkTimestamp.loop` makes over the given rows. -/
def loopOps (timestamp : Int) : List TsRow → List Op
  | [] => [Op.scan, Op.close]
  | r :: rest =>
    if r.writtenTimestamp != timestamp || r.ta != timestamp || r.tb != timestamp then
      [Op.scan]
    else
      Op.scan :: loopOps timestamp rest

/-- One insert as it reaches the driver: the bound id, the value bound to the
`timestamp` column (the fourth marker), and the write timestamp, which is the
`WithTimestamp` argument when there is one and otherwise the value bound to the
trailing `USING TIMESTAMP ?` marker (the fifth). -/
structure Write where
  id : Option Value
  column : Option Value
  writeTimestamp : Option Value
deriving DecidableEq, Repr

/-- The insert made by a statement with its bound values and its `WithTimestamp` setting. -/
def writeOf (values : List Value) (timestamp : Option Int) : Write :=
  ⟨values.get? 0, values.get? 3,
    match timestamp with
    | some t => some (.int64 t)
    | none => values.get? 4⟩

/-- The inserts of one driver call. -/
def Op.writes : Op → List Write
  | .exec q => [writeOf q.values q.timestamp]
  | .executeBatch b => b.entries.map (fun e => writeOf e.args b.timestamp)
  | _ => []

/-- The inserts of a log, in order. -/
def writesOf (log : List Op) : List Write := log.flatMap Op.writes

/-- The integer held by a bound value, if it holds one. -/
def Value.toInt : Value → Option Int
  | .int v => some v
  | .int64 v => some v
  | .string _ => none

/-- The ids written by the inserts of a log, in order. -/
def writtenIds (log : List Op) : List Int :=
  (writesOf log).filterMap (fun w => w.id.bind Value.toInt)

/-- The ids an iterator of one driver call is opened on. -/
def Op.checked : Op → List (List Int)
  | .iter q => [q.values.filterMap Value.toInt]
  | _ => []

/-- The id lists passed to `checkTimestamp` in a log, one per call. -/
def checkedIds (log : List Op) : List (List Int) := log.flatMap Op.checked

/-- The six write tests of `example.go`. -/
inductive WriteTest where
  | Query_WithTimestamp
  | Query_UsingTimestamp
  | Batch_Logged_WithTimestamp
  | Batch_Unlogged_WithTimestamp
  | Batch_Logged_UsingTimestamp
  | Batch_Unlogged_UsingTimestamp
deriving DecidableEq, Repr

/-- The test function of each name. -/
def WriteTest.run : WriteTest → Env TsRow → Int → TestRun
  | .Query_WithTimestamp => TestGOCQL_Query_WithTimestamp
  | .Query_UsingTimestamp => TestGOCQL_Query_UsingTimestamp
  | .Batch_Logged_WithTimestamp => TestGOCQL_Batch_Logged_WithTimestamp
  | .Batch_Unlogged_WithTimestamp => TestGOCQL_Batch_Unlogged_WithTimestamp
  | .Batch_Logged_UsingTimestamp => TestGOCQL_Batch_Logged_UsingTimestamp
  | .Batch_Unlogged_UsingTimestamp => TestGOCQL_Batch_Unlogged_UsingTimestamp

/-- The smaller of the two ids each write test uses. -/
def WriteTest.firstId : WriteTest → Int
  | .Query_WithTimestamp => 1
  | .Query_UsingTimestamp => 3
  | .Batch_Logged_WithTimestamp => 5
  | .Batch_Unlogged_WithTimestamp => 7
  | .Batch_Logged_UsingTimestamp => 9
  | .Batch_Unlogged_UsingTimestamp => 11

/-- What the statements about the write tests need of one log: every insert binds
`c` to the timestamp column and carries `c` as its write timestamp, only the ids
`a` and `b` are written, and every id list passed to `checkTimestamp` is the list of
ids written. -/
def GoodLog (c a b : Int) (log : List Op) : Prop :=
  (∀ w ∈ writesOf log, w.column = some (.int64 c) ∧ w.writeTimestamp = some (.int64 c)) ∧
  (∀ i ∈ writtenIds log, i = a ∨ i = b) ∧
  (∀ p ∈ checkedIds log, p = writtenIds log)

end cqldao

/-! ## Theorems -/

namespace cqldao

open gocql

theorem loop_none_iff (timestamp : Int) (it : Iter TsRow) (rows : List TsRow)
    (session : Session TsRow) :
    (checkTimestamp.loop timestamp it rows session).2 = none ↔
      (∀ r ∈ rows, r.agrees timestamp) ∧ it.err = none := by
  induction rows generalizing session with
  | nil =>
    simp only [checkTimestamp.loop, Iter.Close]
    cases h : it.err <;> simp
  | cons r rest ih =>
    simp only [checkTimestamp.loop]
    by_cases hr : r.agrees timestamp
    · have h1 : (r.writtenTimestamp != timestamp || r.ta != timestamp ||
          r.tb != timestamp) = false := by
        obtain ⟨a, b, c⟩ := hr
        simp [a, b, c]
      simp [h1, ih, hr]
    · have h1 : (r.writtenTimestamp != timestamp || r.ta != timestamp ||
          r.tb != timestamp) = true := by
        unfold TsRow.agrees at hr
        simp only [Bool.or_eq_true, bne_iff_ne]
        by_contra hcon
        push_neg at hcon
        exact hr ⟨hcon.1.1, hcon.1.2, hcon.2⟩
      simp [h1, hr]

theorem loop_agree (timestamp : Int) (it : Iter TsRow) (rows : List TsRow)
    (session : Session TsRow) (h : ∀ r ∈ rows, r.agrees timestamp) :
    checkTimestamp.loop timestamp it rows session =
      (⟨session.log ++ List.replicate (rows.length + 1) Op.scan ++ [Op.close],
        session.driver⟩, it.err) := by
  induction rows generalizing session with
  | nil =>
    simp only [checkTimestamp.loop, Iter.Close, Session.record]
    cases h : it.err <;> simp [List.replicate]
  | cons r rest ih =>
    have hr : r.agrees timestamp := h r (List.mem_cons_self _ _)
    have h1 : (r.writtenTimestamp != timestamp || r.ta != timestamp ||
        r.tb != timestamp) = false := by
      obtain ⟨a, b, c⟩ := hr
      simp [a, b, c]
    simp only [checkTimestamp.loop, h1]
    rw [ih _ (fun x hx => h x (List.mem_cons_of_mem _ hx))]
    simp [Session.record, List.replicate_succ]

theorem loop_disagree (timestamp : Int) (it : Iter TsRow) (rows : List TsRow)
    (session : Session TsRow) (h : ∃ r ∈ rows, ¬ r.agrees timestamp) :
    (checkTimestamp.loop timestamp it rows session).2 = some mismatchError ∧
      closeCalls (checkTimestamp.loop timestamp it rows session).1.log =
        closeCalls session.log := by
  induction rows generalizing session with
  | nil => simp at h
  | cons r rest ih =>
    simp only [checkTimestamp.loop]
    by_cases hr : r.agrees timestamp
    · have h1 : (r.writtenTimestamp != timestamp || r.ta != timestamp ||
          r.tb != timestamp) = false := by
        obtain ⟨a, b, c⟩ := hr
        simp [a, b, c]
      have h2 : ∃ x ∈ rest, ¬ x.agrees timestamp := by
        obtain ⟨x, hx, hxa⟩ := h
        rcases List.mem_cons.mp hx with rfl | hx
        · exact absurd hr hxa
        · exact ⟨x, hx, hxa⟩
      simp only [h1]
      have := ih (session.record .scan) h2
      simpa [closeCalls, Session.record] using this
    · have h1 : (r.writtenTimestamp != timestamp || r.ta != timestamp ||
          r.tb != timestamp) = true := by
        unfold TsRow.agrees at hr
        simp only [Bool.or_eq_true, bne_iff_ne]
        by_contra hcon
        push_neg at hcon
        exact hr ⟨hcon.1.1, hcon.1.2, hcon.2⟩
      simp [h1, closeCalls, Session.record]

theorem checkTimestamp_eq_loop (session : Session TsRow) (timestamp id1 id2 : Int) :
    checkTimestamp session timestamp id1 id2 =
      checkTimestamp.loop timestamp
        ⟨(iteratorOf session id1 id2).1, (iteratorOf session id1 id2).2⟩
        (iteratorOf session id1 id2).1 (session.record (.iter (selectQuery id1 id2))) := by
  simp [checkTimestamp, Session.Iter, iteratorOf, selectQuery]

theorem not_agrees_iff (r : TsRow) (timestamp : Int) :
    ¬ r.agrees timestamp ↔
      (r.writtenTimestamp ≠ timestamp ∨ r.ta ≠ timestamp ∨ r.tb ≠ timestamp) := by
  unfold TsRow.agrees
  constructor
  · intro h
    by_contra hcon
    push_neg at hcon
    exact h hcon
  · rintro h ⟨a, b, c⟩
    rcases h with h | h | h
    · exact h a
    · exact h b
    · exact h c

/-- C1: for every expected timestamp, every sequence of rows the iterator yields and
every result of closing it, `checkTimestamp` returns an error exactly when some row
has one of its three values different from the expected timestamp or closing the
iterator returns an error; otherwise it returns nil. -/
theorem checkTimestamp_error_iff (session : Session TsRow) (timestamp id1 id2 : Int)
    (rows : List TsRow) (closeErr : Option Error)
    (h : iteratorOf session id1 id2 = (rows, closeErr)) :
    (checkTimestamp session timestamp id1 id2).2 ≠ none ↔
      ((∃ r ∈ rows, r.writtenTimestamp ≠ timestamp ∨ r.ta ≠ timestamp ∨ r.tb ≠ timestamp)
        ∨ closeErr ≠ none) := by
  rw [checkTimestamp_eq_loop, h, Ne, loop_none_iff]
  simp only [not_and_or, not_forall]
  constructor
  · rintro (⟨r, hr, hna⟩ | hc)
    · exact Or.inl ⟨r, hr, (not_agrees_iff r timestamp).mp hna⟩
    · exact Or.inr hc
  · rintro (⟨r, hr, hne⟩ | hc)
    · exact Or.inl ⟨r, hr, (not_agrees_iff r timestamp).mpr hne⟩
    · exact Or.inr hc

/-- Witness of C1: one agreeing row followed by a row whose `tb` differs. -/
theorem checkTimestamp_error_iff_witness :
    (checkTimestamp (fixedSession [⟨7, 7, 7⟩, ⟨7, 7, 8⟩] none) 7 1 2).2 ≠ none ↔
      ((∃ r ∈ [(⟨7, 7, 7⟩ : TsRow), ⟨7, 7, 8⟩],
          r.writtenTimestamp ≠ 7 ∨ r.ta ≠ 7 ∨ r.tb ≠ 7) ∨ (none : Option Error) ≠ none) :=
  checkTimestamp_error_iff (fixedSession [⟨7, 7, 7⟩, ⟨7, 7, 8⟩] none) 7 1 2
    [⟨7, 7, 7⟩, ⟨7, 7, 8⟩] none rfl

/-- C2 as stated fails: on an iterator that yields no row and closes cleanly
`checkTimestamp` returns nil, so success does not imply a non-empty row set. -/
theorem checkTimestamp_success_needs_no_row :
    ¬ ∀ (session : Session TsRow) (timestamp id1 id2 : Int),
      (checkTimestamp session timestamp id1 id2).2 = none →
        (iteratorOf session id1 id2).2 = none ∧ (iteratorOf session id1 id2).1 ≠ [] ∧
          ∀ r ∈ (iteratorOf session id1 id2).1, r.agrees timestamp := by
  intro hall
  have h := hall (fixedSession [] none) 5 1 2
    (by simp [checkTimestamp_eq_loop, loop_none_iff, iteratorOf, fixedSession, fixedDriver])
  exact h.2.1 rfl

/-- C2, amended: `checkTimestamp` returns nil only if the iterator was closed, exactly
once and without error, and every yielded row has all three values equal to the
expected timestamp (no row need be yielded). -/
theorem checkTimestamp_success_only_if (session : Session TsRow) (timestamp id1 id2 : Int)
    (h : (checkTimestamp session timestamp id1 id2).2 = none) :
    (iteratorOf session id1 id2).2 = none ∧
      closeCalls (checkTimestamp session timestamp id1 id2).1.log =
        closeCalls session.log + 1 ∧
      ∀ r ∈ (iteratorOf session id1 id2).1,
        r.writtenTimestamp = timestamp ∧ r.ta = timestamp ∧ r.tb = timestamp := by
  rw [checkTimestamp_eq_loop, loop_none_iff] at h
  refine ⟨h.2, ?_, h.1⟩
  rw [checkTimestamp_eq_loop, loop_agree _ _ _ _ h.1]
  simp [closeCalls, Session.record, List.count_append, List.count_replicate]

/-- Witness of the amended C2: two agreeing rows and a clean close. -/
theorem checkTimestamp_success_only_if_witness :
    (iteratorOf (fixedSession [⟨7, 7, 7⟩, ⟨7, 7, 7⟩] none) 1 2).2 = none ∧
      closeCalls (checkTimestamp (fixedSession [⟨7, 7, 7⟩, ⟨7, 7, 7⟩] none) 7 1 2).1.log =
        closeCalls (fixedSession [⟨7, 7, 7⟩, ⟨7, 7, 7⟩] none).log + 1 ∧
      ∀ r ∈ (iteratorOf (fixedSession [⟨7, 7, 7⟩, ⟨7, 7, 7⟩] none) 1 2).1,
        r.writtenTimestamp = 7 ∧ r.ta = 7 ∧ r.tb = 7 :=
  checkTimestamp_success_only_if (fixedSession [⟨7, 7, 7⟩, ⟨7, 7, 7⟩] none) 7 1 2 (by
    simp [checkTimestamp, checkTimestamp.loop, Session.Iter, Iter.Close, fixedSession,
      fixedDriver])

/-- C3: when every yielded row agrees with the expected timestamp (the empty
sequence included) and closing the iterator returns the error `e`, `checkTimestamp`
returns exactly `e`. -/
theorem checkTimestamp_surfaces_close_error (session : Session TsRow)
    (timestamp id1 id2 : Int) (rows : List TsRow) (e : Error)
    (h : iteratorOf session id1 id2 = (rows, some e))
    (hrows : ∀ r ∈ rows,
      r.writtenTimestamp = timestamp ∧ r.ta = timestamp ∧ r.tb = timestamp) :
    (checkTimestamp session timestamp id1 id2).2 = some e := by
  rw [checkTimestamp_eq_loop, h, loop_agree _ _ _ _ hrows]

/-- Witness of C3: one agreeing row, then a close error. -/
theorem checkTimestamp_surfaces_close_error_witness :
    (checkTimestamp (fixedSession [⟨7, 7, 7⟩] (some (errors.New "read timeout"))) 7 1 2).2 =
      some (errors.New "read timeout") :=
  checkTimestamp_surfaces_close_error (fixedSession [⟨7, 7, 7⟩] (some (errors.New "read timeout")))
    7 1 2 [⟨7, 7, 7⟩] (errors.New "read timeout") rfl (by simp)

/-- C4 fails on the code: when the only row yielded has a stored timestamp different
from the expected one, `checkTimestamp` returns the mismatch error after one `Scan`
and without any call of `Close`. -/
theorem checkTimestamp_mismatch_skips_close :
    (checkTimestamp (fixedSession [⟨4, 5, 5⟩] none) 5 1 2).2 = some mismatchError ∧
      (checkTimestamp (fixedSession [⟨4, 5, 5⟩] none) 5 1 2).1.log =
        [Op.iter (selectQuery 1 2), Op.scan] ∧
      closeCalls (checkTimestamp (fixedSession [⟨4, 5, 5⟩] none) 5 1 2).1.log = 0 := by
  simp [checkTimestamp, checkTimestamp.loop, Session.Iter, Session.record, fixedSession,
    fixedDriver, closeCalls, selectQuery]

/-- C5: `createDatabase` executes the drop first and the create second.  If the drop
fails, its error is returned and the create is not executed; if the drop succeeds,
the result is the result of the create; nil is returned exactly when both succeed. -/
theorem createDatabase_outcomes (session : Session TsRow) :
    (∀ e, session.driver.execReply session.log (mkQuery removeTableStmt []) = some e →
      (createDatabase session).2 = some e ∧
      (createDatabase session).1.log = session.log ++ [Op.exec (mkQuery removeTableStmt [])]) ∧
    (session.driver.execReply session.log (mkQuery removeTableStmt []) = none →
      (createDatabase session).2 =
        session.driver.execReply (session.log ++ [Op.exec (mkQuery removeTableStmt [])])
          (mkQuery createTableStmt []) ∧
      (createDatabase session).1.log =
        session.log ++
          [Op.exec (mkQuery removeTableStmt []), Op.exec (mkQuery createTableStmt [])]) ∧
    ((createDatabase session).2 = none ↔
      session.driver.execReply session.log (mkQuery removeTableStmt []) = none ∧
      session.driver.execReply (session.log ++ [Op.exec (mkQuery removeTableStmt [])])
        (mkQuery createTableStmt []) = none) := by
  unfold createDatabase
  simp only [Session.Exec, Session.record]
  cases hd : session.driver.execReply session.log (mkQuery removeTableStmt []) with
  | some e => simp
  | none =>
    cases hc : session.driver.execReply
        (session.log ++ [Op.exec (mkQuery removeTableStmt [])]) (mkQuery createTableStmt []) with
    | some e => simp [hc]
    | none => simp [hc]

end cqldao

namespace cqldao

open gocql

theorem loop_log (timestamp : Int) (it : Iter TsRow) (rows : List TsRow)
    (session : Session TsRow) :
    (checkTimestamp.loop timestamp it rows session).1.log =
      session.log ++ loopOps timestamp rows := by
  induction rows generalizing session with
  | nil =>
    simp only [checkTimestamp.loop, Iter.Close, Session.record, loopOps]
    cases it.err <;> simp
  | cons r rest ih =>
    simp only [checkTimestamp.loop, loopOps]
    split
    · simp [Session.record]
    · rw [ih]
      simp [Session.record]

theorem checkTimestamp_log (session : Session TsRow) (timestamp id1 id2 : Int) :
    (checkTimestamp session timestamp id1 id2).1.log =
      session.log ++ Op.iter (selectQuery id1 id2) ::
        loopOps timestamp (iteratorOf session id1 id2).1 := by
  rw [checkTimestamp_eq_loop, loop_log]
  simp [Session.record]

theorem writes_loopOps (timestamp : Int) (rows : List TsRow) :
    writesOf (loopOps timestamp rows) = [] := by
  induction rows with
  | nil => simp [loopOps, writesOf, Op.writes]
  | cons r rest ih =>
    simp only [loopOps]
    split
    · simp [writesOf, Op.writes]
    · simpa [writesOf, Op.writes] using ih

theorem checked_loopOps (timestamp : Int) (rows : List TsRow) :
    checkedIds (loopOps timestamp rows) = [] := by
  induction rows with
  | nil => simp [loopOps, checkedIds, Op.checked]
  | cons r rest ih =>
    simp only [loopOps]
    split
    · simp [checkedIds, Op.checked]
    · simpa [checkedIds, Op.checked] using ih

theorem writesOf_append (l1 l2 : List Op) :
    writesOf (l1 ++ l2) = writesOf l1 ++ writesOf l2 := by
  simp [writesOf]

theorem checkedIds_append (l1 l2 : List Op) :
    checkedIds (l1 ++ l2) = checkedIds l1 ++ checkedIds l2 := by
  simp [checkedIds]

theorem finish_log (r : Session TsRow × Option Error) :
    (match r with
      | (session, some err) => (⟨session.log, some err⟩ : TestRun)
      | (session, none) => ⟨session.log, none⟩).log = r.1.log := by
  rcases r with ⟨s, _ | e⟩ <;> rfl

theorem connect_log (env : Env TsRow) (session : Session TsRow)
    (h : connectToCassandra env = .ok session) : session.log = [] := by
  unfold connectToCassandra ClusterConfig.CreateSession at h
  dsimp only at h
  split at h
  · cases h
  · cases h
    rfl

theorem Query_WithTimestamp_log (env : Env TsRow) (now : Int) :
    GoodLog (customTimestamp now) 1 2 (TestGOCQL_Query_WithTimestamp env now).log := by
  unfold TestGOCQL_Query_WithTimestamp
  split
  · simp [GoodLog, writesOf, writtenIds, checkedIds]
  · rename_i s hconn
    have hs := connect_log env s hconn
    simp only [Session.Exec, Session.record, hs]
    split
    · rename_i heq
      simp only [Prod.mk.injEq] at heq
      obtain ⟨rfl, -⟩ := heq
      simp [GoodLog, writesOf, writtenIds, checkedIds, Op.writes, Op.checked, writeOf,
        Query.WithTimestamp, mkQuery, Value.toInt, Batch.Query, Batch.WithTimestamp, NewBatch]
    · rename_i heq
      simp only [Prod.mk.injEq] at heq
      obtain ⟨rfl, -⟩ := heq
      split
      · rename_i heq
        simp only [Prod.mk.injEq] at heq
        obtain ⟨rfl, -⟩ := heq
        simp [GoodLog, writesOf, writtenIds, checkedIds, Op.writes, Op.checked, writeOf,
        Query.WithTimestamp, mkQuery, Value.toInt, Batch.Query, Batch.WithTimestamp, NewBatch]
      · rename_i heq
        simp only [Prod.mk.injEq] at heq
        obtain ⟨rfl, -⟩ := heq
        rw [finish_log, checkTimestamp_log]
        have h1 := writes_loopOps
        have h2 := checked_loopOps
        simp only [writesOf, checkedIds] at h1 h2
        simp [GoodLog, writesOf, writtenIds, checkedIds, Op.writes, Op.checked, writeOf,
        Query.WithTimestamp, mkQuery, Value.toInt, Batch.Query, Batch.WithTimestamp, NewBatch,
          selectQuery, h1, h2]

theorem Query_UsingTimestamp_log (env : Env TsRow) (now : Int) :
    GoodLog (customTimestamp now) 3 4 (TestGOCQL_Query_UsingTimestamp env now).log := by
  unfold TestGOCQL_Query_UsingTimestamp
  split
  · simp [GoodLog, writesOf, writtenIds, checkedIds]
  · rename_i s hconn
    have hs := connect_log env s hconn
    simp only [Session.Exec, Session.record, hs]
    split
    · rename_i heq
      simp only [Prod.mk.injEq] at heq
      obtain ⟨rfl, -⟩ := heq
      simp [GoodLog, writesOf, writtenIds, checkedIds, Op.writes, Op.checked, writeOf,
        Query.WithTimestamp, mkQuery, Value.toInt, Batch.Query, Batch.WithTimestamp, NewBatch]
    · rename_i heq
      simp only [Prod.mk.injEq] at heq
      obtain ⟨rfl, -⟩ := heq
      split
      · rename_i heq
        simp only [Prod.mk.injEq] at heq
        obtain ⟨rfl, -⟩ := heq
        simp [GoodLog, writesOf, writtenIds, checkedIds, Op.writes, Op.checked, writeOf,
        Query.WithTimestamp, mkQuery, Value.toInt, Batch.Query, Batch.WithTimestamp, NewBatch]
      · rename_i heq
        simp only [Prod.mk.injEq] at heq
        obtain ⟨rfl, -⟩ := heq
        rw [finish_log, checkTimestamp_log]
        have h1 := writes_loopOps
        have h2 := checked_loopOps
        simp only [writesOf, checkedIds] at h1 h2
        simp [GoodLog, writesOf, writtenIds, checkedIds, Op.writes, Op.checked, writeOf,
        Query.WithTimestamp, mkQuery, Value.toInt, Batch.Query, Batch.WithTimestamp, NewBatch,
          selectQuery, h1, h2]

theorem Batch_Logged_WithTimestamp_log (env : Env TsRow) (now : Int) :
    GoodLog (customTimestamp now) 5 6 (TestGOCQL_Batch_Logged_WithTimestamp env now).log := by
  unfold TestGOCQL_Batch_Logged_WithTimestamp
  split
  · simp [GoodLog, writesOf, writtenIds, checkedIds]
  · rename_i s hconn
    have hs := connect_log env s hconn
    simp only [Session.ExecuteBatch, Session.record, hs]
    split
    · rename_i heq
      simp only [Prod.mk.injEq] at heq
      obtain ⟨rfl, -⟩ := heq
      simp [GoodLog, writesOf, writtenIds, checkedIds, Op.writes, Op.checked, writeOf,
        Query.WithTimestamp, mkQuery, Value.toInt, Batch.Query, Batch.WithTimestamp, NewBatch]
    · rename_i heq
      simp only [Prod.mk.injEq] at heq
      obtain ⟨rfl, -⟩ := heq
      rw [finish_log, checkTimestamp_log]
      have h1 := writes_loopOps
      have h2 := checked_loopOps
      simp only [writesOf, checkedIds] at h1 h2
      simp [GoodLog, writesOf, writtenIds, checkedIds, Op.writes, Op.checked, writeOf,
        Query.WithTimestamp, mkQuery, Value.toInt, Batch.Query, Batch.WithTimestamp, NewBatch,
        selectQuery, h1, h2]

theorem Batch_Unlogged_WithTimestamp_log (env : Env TsRow) (now : Int) :
    GoodLog (customTimestamp now) 7 8 (TestGOCQL_Batch_Unlogged_WithTimestamp env now).log := by
  unfold TestGOCQL_Batch_Unlogged_WithTimestamp
  split
  · simp [GoodLog, writesOf, writtenIds, checkedIds]
  · rename_i s hconn
    have hs := connect_log env s hconn
    simp only [Session.ExecuteBatch, Session.record, hs]
    split
    · rename_i heq
      simp only [Prod.mk.injEq] at heq
      obtain ⟨rfl, -⟩ := heq
      simp [GoodLog, writesOf, writtenIds, checkedIds, Op.writes, Op.checked, writeOf,
        Query.WithTimestamp, mkQuery, Value.toInt, Batch.Query, Batch.WithTimestamp, NewBatch]
    · rename_i heq
      simp only [Prod.mk.injEq] at heq
      obtain ⟨rfl, -⟩ := heq
      rw [finish_log, checkTimestamp_log]
      have h1 := writes_loopOps
      have h2 := checked_loopOps
      simp only [writesOf, checkedIds] at h1 h2
      simp [GoodLog, writesOf, writtenIds, checkedIds, Op.writes, Op.checked, writeOf,
        Query.WithTimestamp, mkQuery, Value.toInt, Batch.Query, Batch.WithTimestamp, NewBatch,
        selectQuery, h1, h2]

theorem Batch_Logged_UsingTimestamp_log (env : Env TsRow) (now : Int) :
    GoodLog (customTimestamp now) 9 10 (TestGOCQL_Batch_Logged_UsingTimestamp env now).log := by
  unfold TestGOCQL_Batch_Logged_UsingTimestamp
  split
  · simp [GoodLog, writesOf, writtenIds, checkedIds]
  · rename_i s hconn
    have hs := connect_log env s hconn
    simp only [Session.ExecuteBatch, Session.record, hs]
    split
    · rename_i heq
      simp only [Prod.mk.injEq] at heq
      obtain ⟨rfl, -⟩ := heq
      simp [GoodLog, writesOf, writtenIds, checkedIds, Op.writes, Op.checked, writeOf,
        Query.WithTimestamp, mkQuery, Value.toInt, Batch.Query, Batch.WithTimestamp, NewBatch]
    · rename_i heq
      simp only [Prod.mk.injEq] at heq
      obtain ⟨rfl, -⟩ := heq
      rw [finish_log, checkTimestamp_log]
      have h1 := writes_loopOps
      have h2 := checked_loopOps
      simp only [writesOf, checkedIds] at h1 h2
      simp [GoodLog, writesOf, writtenIds, checkedIds, Op.writes, Op.checked, writeOf,
        Query.WithTimestamp, mkQuery, Value.toInt, Batch.Query, Batch.WithTimestamp, NewBatch,
        selectQuery, h1, h2]

theorem Batch_Unlogged_UsingTimestamp_log (env : Env TsRow) (now : Int) :
    GoodLog (customTimestamp now) 11 12 (TestGOCQL_Batch_Unlogged_UsingTimestamp env now).log := by
  unfold TestGOCQL_Batch_Unlogged_UsingTimestamp
  split
  · simp [GoodLog, writesOf, writtenIds, checkedIds]
  · rename_i s hconn
    have hs := connect_log env s hconn
    simp only [Session.ExecuteBatch, Session.record, hs]
    split
    · rename_i heq
      simp only [Prod.mk.injEq] at heq
      obtain ⟨rfl, -⟩ := heq
      simp [GoodLog, writesOf, writtenIds, checkedIds, Op.writes, Op.checked, writeOf,
        Query.WithTimestamp, mkQuery, Value.toInt, Batch.Query, Batch.WithTimestamp, NewBatch]
    · rename_i heq
      simp only [Prod.mk.injEq] at heq
      obtain ⟨rfl, -⟩ := heq
      rw [finish_log, checkTimestamp_log]
      have h1 := writes_loopOps
      have h2 := checked_loopOps
      simp only [writesOf, checkedIds] at h1 h2
      simp [GoodLog, writesOf, writtenIds, checkedIds, Op.writes, Op.checked, writeOf,
        Query.WithTimestamp, mkQuery, Value.toInt, Batch.Query, Batch.WithTimestamp, NewBatch,
        selectQuery, h1, h2]

theorem run_goodLog (t : WriteTest) (env : Env TsRow) (now : Int) :
    GoodLog (customTimestamp now) t.firstId (t.firstId + 1) (t.run env now).log := by
  cases t
  · exact Query_WithTimestamp_log env now
  · exact Query_UsingTimestamp_log env now
  · exact Batch_Logged_WithTimestamp_log env now
  · exact Batch_Unlogged_WithTimestamp_log env now
  · exact Batch_Logged_UsingTimestamp_log env now
  · exact Batch_Unlogged_UsingTimestamp_log env now

theorem run_success (t : WriteTest) (now : Int) (rows : List TsRow) (err : Option Error) :
    writtenIds (t.run (envOf (fixedDriver rows err)) now).log = [t.firstId, t.firstId + 1] ∧
      checkedIds (t.run (envOf (fixedDriver rows err)) now).log =
        [[t.firstId, t.firstId + 1]] ∧
      (writesOf (t.run (envOf (fixedDriver rows err)) now).log).length = 2 := by
  have h1 := writes_loopOps
  have h2 := checked_loopOps
  simp only [writesOf, checkedIds] at h1 h2
  cases t <;>
    simp [WriteTest.run, WriteTest.firstId, TestGOCQL_Query_WithTimestamp,
      TestGOCQL_Query_UsingTimestamp, TestGOCQL_Batch_Logged_WithTimestamp,
      TestGOCQL_Batch_Unlogged_WithTimestamp, TestGOCQL_Batch_Logged_UsingTimestamp,
      TestGOCQL_Batch_Unlogged_UsingTimestamp, connectToCassandra,
      ClusterConfig.CreateSession, envOf, fixedDriver, Session.Exec, Session.ExecuteBatch,
      Session.record, finish_log, checkTimestamp_log, writesOf, writtenIds, checkedIds,
      Op.writes, Op.checked, writeOf, Query.WithTimestamp, mkQuery, Value.toInt,
      Batch.Query, Batch.WithTimestamp, NewBatch, selectQuery, h1, h2]

/-- Witness of C5: a drop that fails, and a drop that succeeds before a create that fails. -/
theorem createDatabase_outcomes_witness :
    ((createDatabase ⟨[], scriptedDriver [some (errors.New "drop failed")] [] none⟩).2 =
        some (errors.New "drop failed") ∧
      (createDatabase ⟨[], scriptedDriver [some (errors.New "drop failed")] [] none⟩).1.log =
        [] ++ [Op.exec (mkQuery removeTableStmt [])]) ∧
    ((createDatabase ⟨[], scriptedDriver [none, some (errors.New "create failed")] [] none⟩).2 =
        some (errors.New "create failed") ∧
      (createDatabase ⟨[], scriptedDriver [none, some (errors.New "create failed")] [] none⟩).1.log =
        [] ++ [Op.exec (mkQuery removeTableStmt []), Op.exec (mkQuery createTableStmt [])]) :=
  ⟨(createDatabase_outcomes ⟨[], scriptedDriver [some (errors.New "drop failed")] [] none⟩).1
      (errors.New "drop failed") rfl,
    (createDatabase_outcomes ⟨[], scriptedDriver [none, some (errors.New "create failed")] [] none⟩).2.1
      rfl⟩

/-- C8: the six write tests write pairwise disjoint sets of ids, whatever the cluster
answers; every id list a test passes to `checkTimestamp` is the list of ids that test
wrote; and when the writes succeed each test writes the two ids `firstId`,
`firstId + 1` and passes exactly that pair to `checkTimestamp`. -/
theorem write_tests_use_disjoint_ids :
    (∀ (t1 t2 : WriteTest) (env1 env2 : Env TsRow) (n1 n2 : Int), t1 ≠ t2 →
      List.Disjoint (writtenIds (t1.run env1 n1).log) (writtenIds (t2.run env2 n2).log)) ∧
    (∀ (t : WriteTest) (env : Env TsRow) (n : Int),
      ∀ p ∈ checkedIds (t.run env n).log, p = writtenIds (t.run env n).log) ∧
    (∀ (t : WriteTest) (n : Int) (rows : List TsRow) (err : Option Error),
      writtenIds (t.run (envOf (fixedDriver rows err)) n).log =
          [t.firstId, t.firstId + 1] ∧
        checkedIds (t.run (envOf (fixedDriver rows err)) n).log =
          [[t.firstId, t.firstId + 1]]) := by
  refine ⟨?_, fun t env n => (run_goodLog t env n).2.2, fun t n rows err =>
    ⟨(run_success t n rows err).1, (run_success t n rows err).2.1⟩⟩
  intro t1 t2 env1 env2 n1 n2 hne i h1 h2
  have g1 := (run_goodLog t1 env1 n1).2.1 i h1
  have g2 := (run_goodLog t2 env2 n2).2.1 i h2
  cases t1 <;> cases t2 <;> simp only [WriteTest.firstId] at g1 g2 <;>
    first
      | exact hne rfl
      | omega

/-- C9: for a non-negative 64-bit clock reading `n` in nanoseconds, `customTimestamp`
is the number of whole microseconds in `n` (and fits 64 bits); in every write test
each insert binds that value to the timestamp column and carries the same value as
its write timestamp, and a test whose writes succeed makes two such inserts. -/
theorem customTimestamp_microseconds (n : Int) (h0 : 0 ≤ n) (h1 : n < 2 ^ 63) :
    1000 * customTimestamp n ≤ n ∧ n < 1000 * customTimestamp n + 1000 ∧
    0 ≤ customTimestamp n ∧ customTimestamp n < 2 ^ 63 ∧
    (∀ (t : WriteTest) (env : Env TsRow), ∀ w ∈ writesOf (t.run env n).log,
      w.column = some (.int64 (customTimestamp n)) ∧
        w.writeTimestamp = some (.int64 (customTimestamp n))) ∧
    (∀ (t : WriteTest) (rows : List TsRow) (err : Option Error),
      (writesOf (t.run (envOf (fixedDriver rows err)) n).log).length = 2) := by
  have hdiv : customTimestamp n = n / 1000 := by
    unfold customTimestamp
    exact Int.tdiv_eq_ediv h0 (by norm_num)
  refine ⟨by omega, by omega, by omega, by omega,
    fun t env => (run_goodLog t env n).1,
    fun t rows err => (run_success t n rows err).2.2⟩

/-- Witness of C9: the clock reading 1700000000123456789 ns. -/
theorem customTimestamp_microseconds_witness :
    customTimestamp 1700000000123456789 = 1700000000123456 ∧
    1000 * customTimestamp 1700000000123456789 ≤ 1700000000123456789 ∧
    1700000000123456789 < 1000 * customTimestamp 1700000000123456789 + 1000 ∧
    0 ≤ customTimestamp 1700000000123456789 ∧
    customTimestamp 1700000000123456789 < 2 ^ 63 ∧
    (∀ (t : WriteTest) (env : Env TsRow),
      ∀ w ∈ writesOf (t.run env 1700000000123456789).log,
        w.column = some (.int64 (customTimestamp 1700000000123456789)) ∧
          w.writeTimestamp = some (.int64 (customTimestamp 1700000000123456789))) ∧
    (∀ (t : WriteTest) (rows : List TsRow) (err : Option Error),
      (writesOf (t.run (envOf (fixedDriver rows err)) 1700000000123456789).log).length = 2) :=
  ⟨by decide, customTimestamp_microseconds 1700000000123456789 (by decide) (by decide)⟩

/-- Every disagreeing row ends `checkTimestamp` with the mismatch error and without
a call of `Close`. -/
theorem checkTimestamp_disagree_no_close (session : Session TsRow)
    (timestamp id1 id2 : Int)
    (h : ∃ r ∈ (iteratorOf session id1 id2).1, ¬ r.agrees timestamp) :
    (checkTimestamp session timestamp id1 id2).2 = some mismatchError ∧
      closeCalls (checkTimestamp session timestamp id1 id2).1.log =
        closeCalls session.log := by
  rw [checkTimestamp_eq_loop]
  have := loop_disagree timestamp
    ⟨(iteratorOf session id1 id2).1, (iteratorOf session id1 id2).2⟩
    (iteratorOf session id1 id2).1 (session.record (.iter (selectQuery id1 id2))) h
  simpa [closeCalls, Session.record] using this

/-- An instance of `checkTimestamp_disagree_no_close`: the second row disagrees. -/
theorem checkTimestamp_disagree_no_close_witness :
    (checkTimestamp (fixedSession [⟨7, 7, 7⟩, ⟨7, 6, 7⟩] none) 7 1 2).2 =
        some mismatchError ∧
      closeCalls (checkTimestamp (fixedSession [⟨7, 7, 7⟩, ⟨7, 6, 7⟩] none) 7 1 2).1.log =
        closeCalls (fixedSession [⟨7, 7, 7⟩, ⟨7, 6, 7⟩] none).log :=
  checkTimestamp_disagree_no_close (fixedSession [⟨7, 7, 7⟩, ⟨7, 6, 7⟩] none) 7 1 2
    ⟨⟨7, 6, 7⟩, by simp [iteratorOf, fixedSession, fixedDriver], by decide⟩

/-- When every row agrees, `checkTimestamp` opens the iterator, calls `Scan` once per
row and once more, closes the iterator once, and returns what `Close` returned. -/
theorem checkTimestamp_agree_trace (session : Session TsRow) (timestamp id1 id2 : Int)
    (h : ∀ r ∈ (iteratorOf session id1 id2).1, r.agrees timestamp) :
    (checkTimestamp session timestamp id1 id2).2 = (iteratorOf session id1 id2).2 ∧
      (checkTimestamp session timestamp id1 id2).1.log =
        session.log ++ Op.iter (selectQuery id1 id2) ::
          (List.replicate ((iteratorOf session id1 id2).1.length + 1) Op.scan ++
            [Op.close]) := by
  rw [checkTimestamp_eq_loop, loop_agree _ _ _ _ h]
  simp [Session.record]

/-- An instance of `checkTimestamp_agree_trace`: two agreeing rows. -/
theorem checkTimestamp_agree_trace_witness :
    (checkTimestamp (fixedSession [⟨7, 7, 7⟩, ⟨7, 7, 7⟩] none) 7 1 2).2 = none ∧
      (checkTimestamp (fixedSession [⟨7, 7, 7⟩, ⟨7, 7, 7⟩] none) 7 1 2).1.log =
        [] ++ Op.iter (selectQuery 1 2) :: (List.replicate (2 + 1) Op.scan ++ [Op.close]) :=
  checkTimestamp_agree_trace (fixedSession [⟨7, 7, 7⟩, ⟨7, 7, 7⟩] none) 7 1 2
    (by simp [iteratorOf, fixedSession, fixedDriver, TsRow.agrees])

end cqldao

namespace main1

open gocql

theorem person_loop_log (rows : List PersonRow) (session : Session PersonRow)
    (printed : List String) :
    (PerformOperations.loop rows session printed).1.log =
      session.log ++ List.replicate (rows.length + 1) Op.scan := by
  induction rows generalizing session printed with
  | nil => simp [PerformOperations.loop, Session.record]
  | cons r rest ih =>
    simp only [PerformOperations.loop]
    rw [ih]
    simp [Session.record, List.replicate_succ]

theorem printAll_log (session : Session PersonRow) (name phone : String) :
    ∃ rest, (PerformOperations.printAll session name phone).log = session.log ++ rest ∧
      ∀ op ∈ rest, Reads op := by
  refine ⟨Op.iter (mkQuery selectAllStmt []) :: List.replicate
    ((session.driver.iterReply session.log (mkQuery selectAllStmt [])).1.length + 1)
    Op.scan, ?_, ?_⟩
  · simp [PerformOperations.printAll, Session.Iter, person_loop_log, Session.record]
  · intro op hop
    rcases List.mem_cons.mp hop with rfl | hop
    · trivial
    · rw [List.eq_of_mem_replicate hop]
      trivial

theorem afterCheck_log (session : Session PersonRow) :
    ∃ rest, (PerformOperations.afterCheck session).log =
        session.log ++ insertPersonOp :: rest ∧ ∀ op ∈ rest, Reads op := by
  unfold PerformOperations.afterCheck
  simp only [Session.Exec, Session.QueryScan, Session.record]
  split
  · rename_i e
    split
    · exact ⟨[Op.queryScan (mkQuery selectOneStmt [])], by simp [insertPersonOp],
        by simp [Reads]⟩
    · obtain ⟨rest, h1, h2⟩ := printAll_log
        ⟨session.log ++ [insertPersonOp] ++ [Op.queryScan (mkQuery selectOneStmt [])],
          session.driver⟩ _ _
      refine ⟨Op.queryScan (mkQuery selectOneStmt []) :: rest, ?_, ?_⟩
      · simpa [insertPersonOp] using h1
      · intro op hop
        rcases List.mem_cons.mp hop with rfl | hop
        · trivial
        · exact h2 op hop
  · obtain ⟨rest, h1, h2⟩ := printAll_log
      ⟨session.log ++ [insertPersonOp] ++ [Op.queryScan (mkQuery selectOneStmt [])],
        session.driver⟩ _ _
    refine ⟨Op.queryScan (mkQuery selectOneStmt []) :: rest, ?_, ?_⟩
    · simpa [insertPersonOp] using h1
    · intro op hop
      rcases List.mem_cons.mp hop with rfl | hop
      · trivial
      · exact h2 op hop

/-- When the session exists and `KeyspaceMetadata` returns a metadata value that is
not nil, `CREATE TABLE person` is executed exactly when the metadata's `Tables` map has no
entry `person`, at most once and right after the metadata call; in both cases the
next call is the `INSERT`, and only reads follow it. -/
theorem PerformOperations_creates_iff_missing (env : Env PersonRow)
    (driver : Driver PersonRow) (keySpaceMeta : KeyspaceMetadata) (e : Option Error)
    (hs : env.createSession (PerformOperations.cluster env) = .ok driver)
    (hm : driver.metadataReply [] "keyspace_name" = (some keySpaceMeta, e)) :
    (createPersonOp ∈ (PerformOperations env).log ↔
      keySpaceMeta.Tables.lookup "person" = none) ∧
    ∃ rest, (∀ op ∈ rest, Reads op) ∧
      (PerformOperations env).log =
        Op.keyspaceMetadata "keyspace_name" ::
          ((if keySpaceMeta.Tables.lookup "person" = none then [createPersonOp] else []) ++
            insertPersonOp :: rest) := by
  have key : ∃ rest, (∀ op ∈ rest, Reads op) ∧
      (PerformOperations env).log =
        Op.keyspaceMetadata "keyspace_name" ::
          ((if keySpaceMeta.Tables.lookup "person" = none then [createPersonOp] else []) ++
            insertPersonOp :: rest) := by
    unfold PerformOperations
    simp only [ClusterConfig.CreateSession, hs, Session.KeyspaceMetadata, Session.record, hm,
      Session.Exec]
    cases hl : keySpaceMeta.Tables.lookup "person" with
    | none =>
      obtain ⟨rest, h1, h2⟩ := afterCheck_log
        ⟨[] ++ [Op.keyspaceMetadata "keyspace_name"] ++ [Op.exec (mkQuery createPersonStmt [])],
          driver⟩
      exact ⟨rest, h2, by simpa [createPersonOp] using h1⟩
    | some t =>
      obtain ⟨rest, h1, h2⟩ := afterCheck_log ⟨[] ++ [Op.keyspaceMetadata "keyspace_name"], driver⟩
      exact ⟨rest, h2, by simpa using h1⟩
  refine ⟨?_, key⟩
  obtain ⟨rest, hr, hlog⟩ := key
  rw [hlog]
  have hnot : createPersonOp ∉ rest := fun hmem => by
    have := hr _ hmem
    simp [createPersonOp, Reads] at this
  have hne : createPersonOp ≠ insertPersonOp := by
    simp [createPersonOp, insertPersonOp, mkQuery]
  have hne2 : createPersonOp ≠ Op.keyspaceMetadata "keyspace_name" := by
    simp [createPersonOp]
  by_cases hl : keySpaceMeta.Tables.lookup "person" = none
  · simp [hl]
  · simp [hl, hnot, hne, hne2]

/-- Two instances of `PerformOperations_creates_iff_missing`: a keyspace without
tables, and one that has `person`. -/
theorem PerformOperations_creates_iff_missing_witness :
    ((createPersonOp ∈ (PerformOperations (envOf (tablesDriver []))).log ↔
        List.lookup "person" ([] : List (String × TableMetadata)) = none) ∧
      ∃ rest, (∀ op ∈ rest, Reads op) ∧
        (PerformOperations (envOf (tablesDriver []))).log =
          Op.keyspaceMetadata "keyspace_name" ::
            ((if List.lookup "person" ([] : List (String × TableMetadata)) = none
                then [createPersonOp] else []) ++ insertPersonOp :: rest)) ∧
    ((createPersonOp ∈
          (PerformOperations (envOf (tablesDriver [("person", ⟨"person"⟩)]))).log ↔
        List.lookup "person" [("person", (⟨"person"⟩ : TableMetadata))] = none) ∧
      ∃ rest, (∀ op ∈ rest, Reads op) ∧
        (PerformOperations (envOf (tablesDriver [("person", ⟨"person"⟩)]))).log =
          Op.keyspaceMetadata "keyspace_name" ::
            ((if List.lookup "person" [("person", (⟨"person"⟩ : TableMetadata))] = none
                then [createPersonOp] else []) ++ insertPersonOp :: rest)) :=
  ⟨PerformOperations_creates_iff_missing (envOf (tablesDriver [])) (tablesDriver [])
      ⟨"keyspace_name", []⟩ none rfl rfl,
    PerformOperations_creates_iff_missing (envOf (tablesDriver [("person", ⟨"person"⟩)]))
      (tablesDriver [("person", ⟨"person"⟩)]) ⟨"keyspace_name", [("person", ⟨"person"⟩)]⟩
      none rfl rfl⟩

/-- With a nil metadata pointer `PerformOperations` stops at the read of
`keySpaceMeta.Tables`: no statement is executed. -/
theorem PerformOperations_nil_metadata (env : Env PersonRow) (driver : Driver PersonRow)
    (e : Option Error)
    (hs : env.createSession (PerformOperations.cluster env) = .ok driver)
    (hm : driver.metadataReply [] "keyspace_name" = (none, e)) :
    PerformOperations env =
      ⟨[Op.keyspaceMetadata "keyspace_name"], [], Ending.nilDereference⟩ := by
  unfold PerformOperations
  simp [ClusterConfig.CreateSession, hs, Session.KeyspaceMetadata, Session.record, hm]

/-- An instance of `PerformOperations_nil_metadata`: the keyspace is unknown. -/
theorem PerformOperations_nil_metadata_witness :
    PerformOperations (envOf noKeyspaceDriver) =
      ⟨[Op.keyspaceMetadata "keyspace_name"], [], Ending.nilDereference⟩ :=
  PerformOperations_nil_metadata (envOf noKeyspaceDriver) noKeyspaceDriver
    (some (errors.New "keyspace does not exist")) rfl rfl

/-- C10 fails on the code: when `KeyspaceMetadata` returns a nil pointer with an
error, as for a keyspace the cluster cannot describe, `PerformOperations` discards
the error and stops at the read of `keySpaceMeta.Tables`; the table `person` does
not exist, yet neither `CREATE TABLE person` nor the `INSERT` is executed. -/
theorem PerformOperations_nil_metadata_creates_nothing :
    (PerformOperations (envOf noKeyspaceDriver)).ending = Ending.nilDereference ∧
      (PerformOperations (envOf noKeyspaceDriver)).log =
        [Op.keyspaceMetadata "keyspace_name"] ∧
      createPersonOp ∉ (PerformOperations (envOf noKeyspaceDriver)).log ∧
      insertPersonOp ∉ (PerformOperations (envOf noKeyspaceDriver)).log := by
  have h : PerformOperations (envOf noKeyspaceDriver) =
      ⟨[Op.keyspaceMetadata "keyspace_name"], [], Ending.nilDereference⟩ := by
    simp [PerformOperations, ClusterConfig.CreateSession, envOf, noKeyspaceDriver,
      Session.KeyspaceMetadata, Session.record]
  rw [h]
  simp [createPersonOp, insertPersonOp]

/-- A `Query.Scan` error that reads "not found" without being `gocql.ErrNotFound` is
fatal: `PerformOperations` ends in `log.Fatalf` after the metadata call, the insert
and the select, and prints nothing. -/
theorem PerformOperations_lookalike_error_is_fatal :
    PerformOperations (envOf lookalikeDriver) =
      ⟨[Op.keyspaceMetadata "keyspace_name", insertPersonOp,
          Op.queryScan (mkQuery selectOneStmt [])], [],
        Ending.fatal "Query failed: not found"⟩ := by
  simp [PerformOperations, PerformOperations.afterCheck, ClusterConfig.CreateSession, envOf,
    lookalikeDriver, Session.KeyspaceMetadata, Session.Exec, Session.QueryScan,
    Session.record, insertPersonOp, ErrNotFound, errors.New, Error.msg, List.lookup]

/-- With `gocql.ErrNotFound` itself from `Query.Scan`, `PerformOperations` goes on to
print the empty name and phone and to iterate over all rows. -/
theorem PerformOperations_not_found_continues :
    PerformOperations (envOf (tablesDriver [("person", ⟨"person"⟩)])) =
      ⟨[Op.keyspaceMetadata "keyspace_name", insertPersonOp,
          Op.queryScan (mkQuery selectOneStmt []), Op.iter (mkQuery selectAllStmt []),
          Op.scan], ["Name: ", "Phone: "], Ending.returned⟩ := by
  simp [PerformOperations, PerformOperations.afterCheck, PerformOperations.printAll,
    PerformOperations.loop, ClusterConfig.CreateSession, envOf, tablesDriver,
    Session.KeyspaceMetadata, Session.Exec, Session.QueryScan, Session.Iter,
    Session.record, insertPersonOp, ErrNotFound, List.lookup]

end main1
